import Mathlib

/-!
Verification of the seekers admin layer (src/seekers/admin.py) of the
athene repository: a shallow embedding of the admin configuration hooks
(list filters, queryset restriction, not-found redirect handling, save
hooks, formset stamping, bulk actions, fieldset abbreviation, and the
benefits dashboard aggregation) together with theorems about them.

Conventions of the embedding:
- Django querysets become Lean lists of record structures; `qs.filter(...)`
  becomes `List.filter`.
- Decimal costs become rationals.
- Code that can raise (Python `list.remove` raising ValueError) returns
  `Option`, with `none` standing for the raised exception.
- The mailing-list client is represented by the list of outbound calls a
  save emits, with `subscription_status` passed in as a function from
  email to status string.
-/

namespace Athene

/-- A calendar date, reduced to the components the admin code inspects
(`date__month` and `date__year` lookups). -/
structure Date where
  month : Nat
  year : Nat
  deriving Repr, DecidableEq

/-! ## List filters (admin.py lines 185-219) -/

/-- The fields of a Seeker row that the two list filters inspect:
`inactive_date` (nullable) and `connection_agent_organization` (a string,
empty when the seeker is not a connection agent). -/
structure SeekerRec where
  id : Nat
  inactive_date : Option Date
  connection_agent_organization : String
  deriving Repr, DecidableEq

/-- `IsActiveFilter.title` (admin.py line 186). -/
def IsActiveFilter.title : String := "Active"

/-- `IsActiveFilter.parameter_name` (admin.py line 187). -/
def IsActiveFilter.parameter_name : String := "is_active"

/-- `IsActiveFilter.lookups` (admin.py lines 189-193): the advertised
(value, label) pairs. -/
def IsActiveFilter.lookups : List (String × String) :=
  [("1", "Yes"), ("0", "No")]

/-- `IsActiveFilter.queryset` (admin.py lines 195-201): branches compare
`self.value()` against the literals "true" and "false". `value` is
`self.value()`, `none` when the parameter is absent from the query
string. -/
def IsActiveFilter.queryset (value : Option String) (qs : List SeekerRec) :
    List SeekerRec :=
  if value = some "true" then
    qs.filter (fun s => s.inactive_date.isNone)
  else if value = some "false" then
    qs.filter (fun s => s.inactive_date.isSome)
  else
    qs

/-- `IsConnectionAgentFilter.title` (admin.py line 204). -/
def IsConnectionAgentFilter.title : String := "Connection agent"

/-- `IsConnectionAgentFilter.parameter_name` (admin.py line 205): the same
string as `IsActiveFilter.parameter_name`. -/
def IsConnectionAgentFilter.parameter_name : String := "is_active"

/-- `IsConnectionAgentFilter.lookups` (admin.py lines 207-211). -/
def IsConnectionAgentFilter.lookups : List (String × String) :=
  [("1", "Yes"), ("0", "No")]

/-- `IsConnectionAgentFilter.queryset` (admin.py lines 213-219). -/
def IsConnectionAgentFilter.queryset (value : Option String)
    (qs : List SeekerRec) : List SeekerRec :=
  if value = some "true" then
    qs.filter (fun s => decide (s.connection_agent_organization ≠ ""))
  else if value = some "false" then
    qs.filter (fun s => decide (s.connection_agent_organization = ""))
  else
    qs

/-- How a `SimpleListFilter` obtains `self.value()` from the request: the
value bound to its `parameter_name` in the query string, `none` when
absent. The query string is modelled as an association list. -/
def filterValue (parameter_name : String)
    (queryParams : List (String × String)) : Option String :=
  queryParams.lookup parameter_name

/-! ## HumanAdmin.get_queryset (admin.py lines 127-132) -/

/-- The fields of a Human row that `get_queryset` inspects: the nullable
one-to-one specialization links `seeker` and `communitypartner`. -/
structure HumanRow where
  id : Nat
  seeker : Option Nat
  communitypartner : Option Nat
  deriving Repr, DecidableEq

/-- Python's `str.endswith`: true exactly when the argument is a suffix
of the string, here computed over the strings' character data. -/
def strEndsWith (s pat : String) : Bool :=
  pat.data.isSuffixOf s.data

/-- `HumanAdmin.get_queryset` (admin.py lines 127-132): requests whose
path ends with "/autocomplete/" get the unrestricted queryset; every
other request gets the queryset filtered to rows with both
specialization links null. -/
def HumanAdmin.get_queryset (path : String) (qs : List HumanRow) :
    List HumanRow :=
  if strEndsWith path "/autocomplete/" then
    qs
  else
    qs.filter (fun h => h.seeker.isNone && h.communitypartner.isNone)

/-! ## HumanAdmin._get_obj_does_not_exist_redirect (admin.py lines 147-155) -/

/-- The possible outcomes of the not-found handler: a redirect to the
Seeker admin change page for the given id, or the framework's default
"object does not exist" handling (the `super()` call). -/
inductive NotFoundOutcome where
  | redirectToSeekerChange (objectId : Nat)
  | defaultHandling
  deriving Repr, DecidableEq

/-- `HumanAdmin._get_obj_does_not_exist_redirect` (admin.py lines
147-155), faithful to the source's `try`/`except`/`else`:
`models.Seeker.objects.get(pk=object_id)` raises `DoesNotExist` exactly
when `objectId` is not among the existing Seeker primary keys; the
`except` branch returns the redirect to the Seeker change page, and the
`else` branch (lookup succeeded) falls through to the framework default.
`seekerIds` is the set of existing Seeker primary keys. -/
def HumanAdmin.objDoesNotExistRedirect (seekerIds : List Nat)
    (objectId : Nat) : NotFoundOutcome :=
  if objectId ∈ seekerIds then
    NotFoundOutcome.defaultHandling
  else
    NotFoundOutcome.redirectToSeekerChange objectId

/-! ## Benefits dashboard (SeekerBenefitProxyAdmin.changelist_view,
admin.py lines 319-364) -/

/-- A SeekerBenefit row as the dashboard sees it: a date, a cost, and the
(non-null) seeker foreign key. -/
structure SeekerBenefitRow where
  date : Date
  cost : ℚ
  seeker : Nat
  deriving Repr, DecidableEq

/-- A SeekerBenefitType together with its related `seekerbenefit` rows
(the reverse foreign-key relation the aggregates traverse). -/
structure BenefitType where
  id : Nat
  name : String
  seekerbenefit : List SeekerBenefitRow
  deriving Repr, DecidableEq

/-- `this_month_filter = Q(seekerbenefit__date__month=today.month)`
(admin.py line 324): matches on the calendar month number only; the year
is not constrained. -/
def thisMonthFilter (today : Date) (row : SeekerBenefitRow) : Bool :=
  row.date.month == today.month

/-- `this_year_filter = Q(seekerbenefit__date__year=today.year)`
(admin.py line 325). -/
def thisYearFilter (today : Date) (row : SeekerBenefitRow) : Bool :=
  row.date.year == today.year

/-- The three aggregate columns `_annotated` attaches to a BenefitType:
`used` (a count), and `total` / `average_cost`, which the database
reports as NULL (`none`) when no related row matches the filter. -/
structure Annotated where
  used : Nat
  total : Option ℚ
  average_cost : Option ℚ
  deriving Repr, DecidableEq

/-- `_annotated` (admin.py lines 327-334) applied to one BenefitType:
`used = Count('seekerbenefit', filter=filter_q)`,
`total = Sum('seekerbenefit__cost', filter=filter_q)`,
`average_cost = Avg('seekerbenefit__cost', filter=filter_q)`; a filter of
`none` models the `filter=None` all-time pass. SQL `SUM`/`AVG` over an
empty set are NULL. -/
def annotatedOne (filterQ : Option (SeekerBenefitRow → Bool))
    (bt : BenefitType) : Annotated :=
  let rows := match filterQ with
    | some f => bt.seekerbenefit.filter f
    | none => bt.seekerbenefit
  { used := rows.length
    total := if rows.isEmpty then none else some (rows.map (·.cost)).sum
    average_cost :=
      if rows.isEmpty then none
      else some ((rows.map (·.cost)).sum / rows.length) }

/-- The three annotation passes of `changelist_view` (admin.py lines
336-338) for one BenefitType: this-month, this-year, all-time. -/
def changelistAnnotations (today : Date) (bt : BenefitType) :
    Annotated × Annotated × Annotated :=
  (annotatedOne (some (thisMonthFilter today)) bt,
   annotatedOne (some (thisYearFilter today)) bt,
   annotatedOne none bt)

/-- `seekers_this_month` (admin.py lines 340-341):
`SeekerBenefit.objects.filter(date__month=today.month).aggregate(count=Count('seeker'))`.
`Count('seeker')` counts the rows with a non-null seeker column, and the
foreign key is non-null, so this is the number of benefit rows whose date
month matches today's month. `benefits` is the full SeekerBenefit
table. -/
def seekersThisMonth (today : Date) (benefits : List SeekerBenefitRow) :
    Nat :=
  (benefits.filter (fun b => b.date.month == today.month)).length

/-- `total_spent_this_month` (admin.py lines 342-343): the SQL SUM of the
costs of the month-matching rows, with the trailing `or Decimal("0")`
turning the NULL of an empty set into zero. A sum over the empty list is
already zero, which coincides with that default. -/
def totalSpentThisMonth (today : Date) (benefits : List SeekerBenefitRow) :
    ℚ :=
  ((benefits.filter (fun b => b.date.month == today.month)).map
    (·.cost)).sum

/-- `avg_per_seeker` (admin.py lines 344-347): `total / count` when
`seekers_this_month` is truthy (nonzero), `Decimal("0")` otherwise. -/
def avgPerSeeker (today : Date) (benefits : List SeekerBenefitRow) : ℚ :=
  if seekersThisMonth today benefits ≠ 0 then
    totalSpentThisMonth today benefits / (seekersThisMonth today benefits : ℚ)
  else
    0

/-! ## Mailing-list save hooks (HumanAdminMixin, admin.py lines 47-72) -/

/-- The fields of the saved object that the save hooks read. In Python,
`obj.email` is truthy exactly when it is a non-empty string. -/
structure HumanObj where
  first_names : String
  last_names : String
  email : String
  deriving Repr, DecidableEq

/-- One outbound call to the mailing-list client. -/
inductive MailCall where
  | subscribeUser (first last email : String) (tags : List String)
  | updateUserTags (email : String) (tags : List String)
  deriving Repr, DecidableEq

/-- The settings the hooks consult: `MAILCHIMP_TAGS` (the choices of the
checkbox form) and `MAILCHIMP_DEFAULT_<MODEL>_TAGS` for the admin's
model. -/
structure MailSettings where
  mailchimpTags : List String
  defaultModelTags : List String
  deriving Repr, DecidableEq

/-- Validity of `MailchimpForm` (admin.py lines 42-45): a
`MultipleChoiceField` with `required=False` validates exactly when every
submitted tag is among the configured choices; its `cleaned_data['tags']`
is then the submitted list. -/
def mailchimpFormIsValid (settings : MailSettings)
    (submittedTags : List String) : Bool :=
  submittedTags.all (fun t => settings.mailchimpTags.contains t)

/-- `HumanAdminMixin.save_model` (admin.py lines 49-58): on a non-change
save of an object with a truthy email whose subscription status is not
"subscribed", emit one `subscribe_user` call with the model's default
tags. `status` is the client's `subscription_status`, as a function from
email to the returned status string. -/
def save_model (settings : MailSettings) (status : String → String)
    (change : Bool) (obj : HumanObj) : List MailCall :=
  if change = false ∧ obj.email ≠ "" then
    if status obj.email ≠ "subscribed" then
      [MailCall.subscribeUser obj.first_names obj.last_names obj.email
        settings.defaultModelTags]
    else []
  else []

/-- `HumanAdminMixin.save_related` (admin.py lines 60-72): on a change
save of an instance with a truthy email whose status is "subscribed",
emit `update_user_tags` with the form's cleaned tags when the submitted
`MailchimpForm` is valid; an invalid form only logs a warning. -/
def save_related (settings : MailSettings) (status : String → String)
    (change : Bool) (email : String) (submittedTags : List String) :
    List MailCall :=
  if change = true ∧ email ≠ "" then
    if status email = "subscribed" then
      if mailchimpFormIsValid settings submittedTags then
        [MailCall.updateUserTags email submittedTags]
      else []
    else []
  else []

/-- One admin save of a Human/Seeker/CommunityPartner record: the admin
calls `save_model` and then `save_related` in the same request; the
outbound mailing calls are those of both hooks in order. -/
def adminSave (settings : MailSettings) (status : String → String)
    (change : Bool) (obj : HumanObj) (submittedTags : List String) :
    List MailCall :=
  save_model settings status change obj ++
    save_related settings status change obj.email submittedTags

/-! ## Notes inline (HumanNoteAdmin and HumanAdminMixin.save_formset,
admin.py lines 30-40 and 97-105) -/

/-- `HumanNoteAdmin.has_change_permission` (admin.py lines 39-40):
returns False for every request and object. `requestUser` stands for the
requesting user, `obj` for the optional object argument. -/
def HumanNoteAdmin.has_change_permission (requestUser : Nat)
    (obj : Option Nat) : Bool :=
  false

/-- An instance coming out of an inline formset save: its model class
(whether it is a HumanNote), its primary key (`none` before the first
save), its `added_by` user, and its note text. -/
structure InlineInstance where
  isHumanNote : Bool
  id : Option Nat
  added_by : Option Nat
  note : String
  deriving Repr, DecidableEq

/-- The body of the loop of `HumanAdminMixin.save_formset` (admin.py
lines 101-105) for one instance: when the instance is a HumanNote with
no id yet, its `added_by` is set to the requesting user before saving;
every other instance is saved as-is. -/
def stampInstance (requestUser : Nat) (inst : InlineInstance) :
    InlineInstance :=
  if inst.isHumanNote = true ∧ inst.id = none then
    { inst with added_by := some requestUser }
  else
    inst

/-- `HumanAdminMixin.save_formset` (admin.py lines 97-105) over the
formset's new/changed instances: each is stamped and saved. -/
def save_formset (requestUser : Nat) (instances : List InlineInstance) :
    List InlineInstance :=
  instances.map (stampInstance requestUser)

/-! ## SeekerAdmin.downgrade_to_prospect (admin.py lines 290-294) -/

/-- The database state the downgrade action touches: the Human rows, the
Seeker specialization rows (each a Human id), the HumanNote rows
(note id, human id) and the SeekerPairing rows (pairing id, left,
right). -/
structure Db where
  humans : List Nat
  seekers : List Nat
  notes : List (Nat × Nat)
  pairings : List (Nat × Nat × Nat)
  deriving Repr, DecidableEq

/-- `seeker.delete(keep_parents=True)` (admin.py line 292): deletes the
Seeker specialization row only; the parent Human row and rows referring
to the Human are untouched. -/
def deleteKeepParents (db : Db) (sid : Nat) : Db :=
  { db with seekers := db.seekers.filter (fun s => s != sid) }

/-- `SeekerAdmin.downgrade_to_prospect` (admin.py lines 290-294): delete
each selected seeker with `keep_parents=True`, then message the user
with the count of selected seekers. -/
def downgrade_to_prospect (db : Db) (queryset : List Nat) : Db × String :=
  (queryset.foldl deleteKeepParents db,
   s!"{queryset.length} seeker(s) downgraded to Prospects.")

/-! ## get_fieldsets in popup add mode (admin.py lines 134-162, 226-255,
369-385) -/

/-- One entry of a fieldset's `fields` list: either a single field name
or a tuple grouping several on one line. Python's `list.remove('x')`
compares elements for equality, so a tuple entry never equals a string
name. -/
inductive FieldEntry where
  | single (name : String)
  | group (names : List String)
  deriving Repr, DecidableEq

/-- One fieldset: an optional section title and its `fields` list. -/
structure Fieldset where
  title : Option String
  fields : List FieldEntry
  deriving Repr, DecidableEq

/-- Python `list.remove(x)`: removes the first element equal to `x`;
raises ValueError (`none` here) when no element equals `x`. -/
def listRemove (xs : List FieldEntry) (x : FieldEntry) :
    Option (List FieldEntry) :=
  if x ∈ xs then some (xs.erase x) else none

/-- `HumanAdmin.fieldsets` (admin.py lines 134-145). -/
def humanFieldsets : List Fieldset :=
  [⟨none, [.single "show_id", .group ["first_names", "last_names"],
           .group ["city", "state"]]⟩,
   ⟨some "Contact information",
    [.group ["email", "phone_number"], .single "contact_preference"]⟩,
   ⟨some "Record history", [.group ["created", "updated"]]⟩]

/-- `SeekerAdmin.fieldsets` (admin.py lines 226-247). Note the pairing
display entry is named "seeker_pairs". -/
def seekerFieldsets : List Fieldset :=
  [⟨none, [.single "show_id", .group ["first_names", "last_names"],
           .single "street_address", .group ["city", "state", "zip_code"],
           .single "seeker_pairs", .single "transportation",
           .single "listener_trained", .single "extra_care",
           .single "extra_care_graduate"]⟩,
   ⟨some "Contact information",
    [.group ["email", "phone_number"],
     .group ["facebook_username", "facebook_alias"],
     .single "contact_preference"]⟩,
   ⟨some "Service Opportunities",
    [.group ["ride_share", "space_holder", "activity_buddy", "outreach"],
     .single "connection_agent_organization"]⟩,
   ⟨some "Important dates", [.group ["birthdate", "sober_anniversary"]]⟩,
   ⟨some "Record history",
    [.group ["created", "updated"], .single "inactive_date"]⟩]

/-- `CommunityPartnerAdmin.fieldsets` (admin.py lines 373-384). -/
def communityPartnerFieldsets : List Fieldset :=
  [⟨none, [.single "show_id", .group ["first_names", "last_names"],
           .group ["city", "state"], .single "organization"]⟩,
   ⟨some "Contact information",
    [.group ["email", "phone_number"], .single "contact_preference"]⟩,
   ⟨some "Record history", [.group ["created", "updated"]]⟩]

/-- `HumanAdmin.get_fieldsets` (admin.py lines 157-162): on an add form
(`obj is None`) opened in popup mode, deep-copy the first two fieldsets,
remove "show_id" from the first group's fields, and return them; any
other request gets the full `fieldsets`. `objIsNone` models
`obj is None`, `popupInGET` models `'_popup' in request.GET`; the result
is `none` when the Python code raises. -/
def HumanAdmin.get_fieldsets (objIsNone : Bool) (popupInGET : Bool) :
    Option (List Fieldset) :=
  if objIsNone = true ∧ popupInGET = true then
    match humanFieldsets.take 2 with
    | [] => none
    | fs0 :: rest =>
        (listRemove fs0.fields (.single "show_id")).map
          (fun fields => { fs0 with fields := fields } :: rest)
  else
    some humanFieldsets

/-- `SeekerAdmin.get_fieldsets` (admin.py lines 249-255): like the Human
version but with a second removal, of the entry named "seeker_pair"
(admin.py line 253) — while the fieldset entry is "seeker_pairs". -/
def SeekerAdmin.get_fieldsets (objIsNone : Bool) (popupInGET : Bool) :
    Option (List Fieldset) :=
  if objIsNone = true ∧ popupInGET = true then
    match seekerFieldsets.take 2 with
    | [] => none
    | fs0 :: rest => do
        let f1 ← listRemove fs0.fields (.single "show_id")
        let f2 ← listRemove f1 (.single "seeker_pair")
        pure ({ fs0 with fields := f2 } :: rest)
  else
    some seekerFieldsets

/-- `CommunityPartnerAdmin` (admin.py lines 369-385) declares no
`get_fieldsets` override (and `HumanAdminMixin` has none), so the
framework default applies on every request, popup add included: it
returns the admin's `fieldsets` unchanged. -/
def CommunityPartnerAdmin.get_fieldsets (objIsNone : Bool)
    (popupInGET : Bool) : Option (List Fieldset) :=
  some communityPartnerFieldsets

/-! ## Theorems -/

/-- Claim C1, behavior of the code at the failing input: when the object
id belongs to an existing Seeker (id 7 with Seeker pks [7]), the handler
falls through to the framework's default not-found handling, and when
the id belongs to no Seeker it redirects to that (nonexistent) Seeker's
change page — the exact inverse of the claimed behavior, because the
redirect sits in the `except DoesNotExist` branch and the `super()` call
in the `else` branch. -/
theorem C1_code_behavior_at_failing_input :
    HumanAdmin.objDoesNotExistRedirect [7] 7 =
      NotFoundOutcome.defaultHandling ∧
    HumanAdmin.objDoesNotExistRedirect [] 7 =
      NotFoundOutcome.redirectToSeekerChange 7 := by
  decide

/-- Claim C2: for every filter value advertised by `lookups()` (that is,
"1" and "0") and every queryset, both `IsActiveFilter.queryset` and
`IsConnectionAgentFilter.queryset` return the input queryset unchanged,
because their branches compare the value against the literals "true" and
"false". -/
theorem C2_advertised_values_are_no_ops (v : String)
    (hA : v ∈ IsActiveFilter.lookups.map Prod.fst)
    (hC : v ∈ IsConnectionAgentFilter.lookups.map Prod.fst)
    (qs : List SeekerRec) :
    IsActiveFilter.queryset (some v) qs = qs ∧
    IsConnectionAgentFilter.queryset (some v) qs = qs := by
  have hv : v = "1" ∨ v = "0" := by
    simpa [IsActiveFilter.lookups] using hA
  rcases hv with rfl | rfl <;>
    simp [IsActiveFilter.queryset, IsConnectionAgentFilter.queryset]

/-- Witness for claim C2 at the concrete value "1" and a one-element
queryset. -/
theorem C2_witness :
    IsActiveFilter.queryset (some "1") [⟨1, none, ""⟩] = [⟨1, none, ""⟩] ∧
    IsConnectionAgentFilter.queryset (some "1") [⟨1, none, ""⟩] =
      [⟨1, none, ""⟩] :=
  C2_advertised_values_are_no_ops "1" (by decide) (by decide)
    [⟨1, none, ""⟩]

/-- Claim C9: `HumanAdmin.get_queryset` restricts to unspecialized
Humans (both `seeker` and `communitypartner` null) for every request
except those whose path ends with "/autocomplete/", which get the
unrestricted queryset — so a specialized Human in the base queryset
appears in autocomplete results and never in the change list. -/
theorem C9_autocomplete_bypasses_prospect_restriction (path : String)
    (qs : List HumanRow) :
    (strEndsWith path "/autocomplete/" = true →
      HumanAdmin.get_queryset path qs = qs) ∧
    (strEndsWith path "/autocomplete/" = false →
      HumanAdmin.get_queryset path qs =
        qs.filter (fun h => h.seeker.isNone && h.communitypartner.isNone)) ∧
    (∀ h ∈ qs, strEndsWith path "/autocomplete/" = true →
      h ∈ HumanAdmin.get_queryset path qs) ∧
    (∀ h : HumanRow, strEndsWith path "/autocomplete/" = false →
      h.seeker.isSome = true → h ∉ HumanAdmin.get_queryset path qs) := by
  unfold HumanAdmin.get_queryset
  cases hp : strEndsWith path "/autocomplete/" with
  | true =>
      refine ⟨fun _ => by simp, by simp, fun h hh _ => by simpa, ?_⟩
      intro h hfalse
      exact absurd hfalse (by simp)
  | false =>
      refine ⟨by simp, fun _ => by simp,
        fun h hh htrue => by simp at htrue, ?_⟩
      intro h _ hsome hmem
      simp only [if_neg Bool.false_ne_true, List.mem_filter] at hmem
      rcases hmem with ⟨-, hpred⟩
      simp only [Bool.and_eq_true, Option.isNone_iff_eq_none] at hpred
      rcases hpred with ⟨h1, -⟩
      rw [h1] at hsome
      simp at hsome

/-- Witness for claim C9: a specialized Human row survives an
autocomplete request and is removed from a change-list request. -/
theorem C9_witness :
    HumanAdmin.get_queryset "/admin/seekers/human/autocomplete/"
      [⟨1, some 4, none⟩] = [⟨1, some 4, none⟩] ∧
    (⟨1, some 4, none⟩ : HumanRow) ∉
      HumanAdmin.get_queryset "/admin/seekers/human/" [⟨1, some 4, none⟩] :=
  ⟨(C9_autocomplete_bypasses_prospect_restriction
      "/admin/seekers/human/autocomplete/" [⟨1, some 4, none⟩]).1 (by decide),
   (C9_autocomplete_bypasses_prospect_restriction
      "/admin/seekers/human/" [⟨1, some 4, none⟩]).2.2.2
     ⟨1, some 4, none⟩ (by decide) rfl⟩

/-- Claim C10: the two Seeker list filters declare the same
`parameter_name` ("is_active"), so for every query string they read the
value of one and the same parameter and can never be set to independent
values in a single request. -/
theorem C10_filters_share_parameter_name :
    IsActiveFilter.parameter_name = IsConnectionAgentFilter.parameter_name ∧
    ∀ queryParams : List (String × String),
      filterValue IsActiveFilter.parameter_name queryParams =
        filterValue IsConnectionAgentFilter.parameter_name queryParams :=
  ⟨rfl, fun _ => rfl⟩

/-- Claim C3, counterexample: a BenefitType with three rows dated this
month (June 2020; costs 10, 20, 30) and one row dated last year (June
2019, cost 5) gets a this-month `used` of 4, not the claimed 3, because
the month window `Q(seekerbenefit__date__month=today.month)` matches the
calendar month number regardless of year. -/
theorem C3_counterexample :
    (changelistAnnotations ⟨6, 2020⟩
        ⟨1, "T", [⟨⟨6, 2020⟩, 10, 1⟩, ⟨⟨6, 2020⟩, 20, 2⟩,
                  ⟨⟨6, 2020⟩, 30, 3⟩, ⟨⟨6, 2019⟩, 5, 4⟩]⟩).1.used = 4 ∧
    ¬ (changelistAnnotations ⟨6, 2020⟩
        ⟨1, "T", [⟨⟨6, 2020⟩, 10, 1⟩, ⟨⟨6, 2020⟩, 20, 2⟩,
                  ⟨⟨6, 2020⟩, 30, 3⟩, ⟨⟨6, 2019⟩, 5, 4⟩]⟩).1.used = 3 := by
  constructor
  · rfl
  · decide

/-- Claim C3 as amended: for every today and every BenefitType with
exactly three rows dated this month (costs 10, 20, 30) and one row dated
last year in a calendar month different from the current one (cost 5),
the this-month annotation yields used = 3, total = 60, average_cost = 20
and the all-time annotation yields used = 4, total = 65; the this-month
window matches on calendar month number only, so the different-month
hypothesis is needed. -/
theorem C3_dashboard_annotations (today lastYear : Date)
    (s1 s2 s3 s4 : Nat) (hm : lastYear.month ≠ today.month)
    (hy : lastYear.year = today.year - 1) (hy1 : 1 ≤ today.year) :
    let bt : BenefitType :=
      ⟨1, "T", [⟨⟨today.month, today.year⟩, 10, s1⟩,
                ⟨⟨today.month, today.year⟩, 20, s2⟩,
                ⟨⟨today.month, today.year⟩, 30, s3⟩,
                ⟨lastYear, 5, s4⟩]⟩
    (changelistAnnotations today bt).1.used = 3 ∧
    (changelistAnnotations today bt).1.total = some 60 ∧
    (changelistAnnotations today bt).1.average_cost = some 20 ∧
    (changelistAnnotations today bt).2.2.used = 4 ∧
    (changelistAnnotations today bt).2.2.total = some 65 := by
  intro bt
  have hm' : (lastYear.month == today.month) = false := by
    simpa using hm
  simp only [bt, changelistAnnotations, annotatedOne, thisMonthFilter,
    List.filter, beq_self_eq_true, hm', List.isEmpty_cons, List.map_cons,
    List.map_nil, List.sum_cons, List.sum_nil, List.length_cons,
    List.length_nil]
  norm_num

/-- Witness for claim C3 as amended, at today = June 2020 with the
last-year row dated May 2019. -/
theorem C3_witness :
    (changelistAnnotations ⟨6, 2020⟩
        ⟨1, "T", [⟨⟨6, 2020⟩, 10, 1⟩, ⟨⟨6, 2020⟩, 20, 2⟩,
                  ⟨⟨6, 2020⟩, 30, 3⟩, ⟨⟨5, 2019⟩, 5, 4⟩]⟩).1.used = 3 ∧
    (changelistAnnotations ⟨6, 2020⟩
        ⟨1, "T", [⟨⟨6, 2020⟩, 10, 1⟩, ⟨⟨6, 2020⟩, 20, 2⟩,
                  ⟨⟨6, 2020⟩, 30, 3⟩, ⟨⟨5, 2019⟩, 5, 4⟩]⟩).1.total = some 60 ∧
    (changelistAnnotations ⟨6, 2020⟩
        ⟨1, "T", [⟨⟨6, 2020⟩, 10, 1⟩, ⟨⟨6, 2020⟩, 20, 2⟩,
                  ⟨⟨6, 2020⟩, 30, 3⟩, ⟨⟨5, 2019⟩, 5, 4⟩]⟩).1.average_cost =
      some 20 ∧
    (changelistAnnotations ⟨6, 2020⟩
        ⟨1, "T", [⟨⟨6, 2020⟩, 10, 1⟩, ⟨⟨6, 2020⟩, 20, 2⟩,
                  ⟨⟨6, 2020⟩, 30, 3⟩, ⟨⟨5, 2019⟩, 5, 4⟩]⟩).2.2.used = 4 ∧
    (changelistAnnotations ⟨6, 2020⟩
        ⟨1, "T", [⟨⟨6, 2020⟩, 10, 1⟩, ⟨⟨6, 2020⟩, 20, 2⟩,
                  ⟨⟨6, 2020⟩, 30, 3⟩, ⟨⟨5, 2019⟩, 5, 4⟩]⟩).2.2.total =
      some 65 :=
  C3_dashboard_annotations ⟨6, 2020⟩ ⟨5, 2019⟩ 1 2 3 4
    (by decide) (by decide) (by decide)

/-- Claim C4: when no benefit row matches the month window (no seeker
used any benefit this month), `avg_per_seeker` is the decimal zero — no
division-by-zero is raised — and when the month's seeker count is
nonzero it is the month's total spend divided by that count. -/
theorem C4_avg_per_seeker_guard (today : Date)
    (benefits : List SeekerBenefitRow) :
    ((∀ b ∈ benefits, b.date.month ≠ today.month) →
      avgPerSeeker today benefits = 0) ∧
    (seekersThisMonth today benefits ≠ 0 →
      avgPerSeeker today benefits =
        totalSpentThisMonth today benefits /
          (seekersThisMonth today benefits : ℚ)) := by
  constructor
  · intro h
    have hc : seekersThisMonth today benefits = 0 := by
      simp only [seekersThisMonth, List.length_eq_zero,
        List.filter_eq_nil_iff]
      intro b hb
      simpa using h b hb
    simp [avgPerSeeker, hc]
  · intro h
    simp [avgPerSeeker, h]

/-- Witness for claim C4: an off-month table yields the zero default; a
two-row in-month table yields total divided by count (35/2 here). -/
theorem C4_witness :
    avgPerSeeker ⟨6, 2020⟩ [⟨⟨5, 2020⟩, 10, 1⟩] = 0 ∧
    avgPerSeeker ⟨6, 2020⟩ [⟨⟨6, 2020⟩, 10, 1⟩, ⟨⟨6, 2020⟩, 25, 2⟩] =
      totalSpentThisMonth ⟨6, 2020⟩
          [⟨⟨6, 2020⟩, 10, 1⟩, ⟨⟨6, 2020⟩, 25, 2⟩] /
        (seekersThisMonth ⟨6, 2020⟩
          [⟨⟨6, 2020⟩, 10, 1⟩, ⟨⟨6, 2020⟩, 25, 2⟩] : ℚ) :=
  ⟨(C4_avg_per_seeker_guard ⟨6, 2020⟩ [⟨⟨5, 2020⟩, 10, 1⟩]).1 (by decide),
   (C4_avg_per_seeker_guard ⟨6, 2020⟩
      [⟨⟨6, 2020⟩, 10, 1⟩, ⟨⟨6, 2020⟩, 25, 2⟩]).2 (by decide)⟩

/-- Claim C5, counterexample: on an edit (change = True) of a record
whose email is already subscribed, with a submitted tag that is not
among the configured choices, the save emits no mailing call at all — in
particular `update_user_tags` is not called with the submitted tags,
because the invalid form only logs a warning. -/
theorem C5_counterexample :
    adminSave ⟨["news"], ["d"]⟩ (fun _ => "subscribed") true
      ⟨"F", "L", "a@b"⟩ ["bogus"] = [] := by
  decide

/-- Claim C5 as amended: `subscribe_user` is emitted (with the model's
default tags) exactly when the save is a creation, the email is
non-empty, and the subscription status is not "subscribed"; and on an
edit of a record with non-empty subscribed email whose submitted
checkbox form is valid, the save emits exactly one call,
`update_user_tags` with the form's tags — so `subscribe_user` is never
called on an edit. -/
theorem C5_save_mail_calls (settings : MailSettings)
    (status : String → String) (change : Bool) (obj : HumanObj)
    (submittedTags : List String) :
    ((MailCall.subscribeUser obj.first_names obj.last_names obj.email
        settings.defaultModelTags ∈
          adminSave settings status change obj submittedTags) ↔
      (change = false ∧ obj.email ≠ "" ∧
        status obj.email ≠ "subscribed")) ∧
    (change = true → obj.email ≠ "" → status obj.email = "subscribed" →
      mailchimpFormIsValid settings submittedTags = true →
      adminSave settings status change obj submittedTags =
        [MailCall.updateUserTags obj.email submittedTags]) := by
  cases change with
  | false =>
      constructor
      · by_cases he : obj.email = "" <;>
          by_cases hs : status obj.email = "subscribed" <;>
            simp [adminSave, save_model, save_related, he, hs]
      · intro h
        exact absurd h (by simp)
  | true =>
      constructor
      · by_cases he : obj.email = "" <;>
          by_cases hs : status obj.email = "subscribed" <;>
            by_cases hv :
                mailchimpFormIsValid settings submittedTags = true <;>
              simp [adminSave, save_model, save_related, he, hs, hv]
      · intro _ he hs hv
        simp [adminSave, save_model, save_related, he, hs, hv]

/-- Witness for claim C5 as amended: a creation with an unsubscribed
email emits the subscribe call, and an edit of a subscribed email with a
valid form emits exactly the tag update. -/
theorem C5_witness :
    ((MailCall.subscribeUser "F" "L" "a@b" ["d"] ∈
        adminSave ⟨["news"], ["d"]⟩ (fun _ => "x") false
          ⟨"F", "L", "a@b"⟩ []) ↔
      (false = false ∧ ("a@b" : String) ≠ "" ∧
        ("x" : String) ≠ "subscribed")) ∧
    adminSave ⟨["news"], ["d"]⟩ (fun _ => "subscribed") true
        ⟨"F", "L", "a@b"⟩ ["news"] =
      [MailCall.updateUserTags "a@b" ["news"]] :=
  ⟨(C5_save_mail_calls ⟨["news"], ["d"]⟩ (fun _ => "x") false
      ⟨"F", "L", "a@b"⟩ []).1,
   (C5_save_mail_calls ⟨["news"], ["d"]⟩ (fun _ => "subscribed") true
      ⟨"F", "L", "a@b"⟩ ["news"]).2 rfl (by decide) rfl (by decide)⟩

/-- Claim C6: the note inline's change permission is false for every
request and object; `added_by` is stamped with the requesting user only
when the note has no id yet; an instance that already has an id passes
through `save_formset`'s stamping unchanged, whoever the requesting user
is; and a formset whose instances all have ids is saved entirely
unchanged. -/
theorem C6_notes_append_only :
    (∀ u obj, HumanNoteAdmin.has_change_permission u obj = false) ∧
    (∀ u inst, inst.id ≠ none → stampInstance u inst = inst) ∧
    (∀ u inst, inst.isHumanNote = true → inst.id = none →
      (stampInstance u inst).added_by = some u) ∧
    (∀ u insts, (∀ inst ∈ insts, inst.id ≠ none) →
      save_formset u insts = insts) := by
  refine ⟨fun _ _ => rfl, ?_, ?_, ?_⟩
  · intro u inst h
    rw [stampInstance, if_neg]
    rintro ⟨-, h2⟩
    exact h h2
  · intro u inst h1 h2
    rw [stampInstance, if_pos ⟨h1, h2⟩]
  · intro u insts h
    have : ∀ inst ∈ insts, stampInstance u inst = inst := by
      intro inst hin
      rw [stampInstance, if_neg]
      rintro ⟨-, h2⟩
      exact h inst hin h2
    calc save_formset u insts = insts.map id := List.map_congr_left this
      _ = insts := List.map_id insts

/-- Witness for claim C6: a saved note (id 3) keeps its original
`added_by` (user 1) under a later save by user 9, and a fresh note is
stamped with the saving user. -/
theorem C6_witness :
    stampInstance 9 ⟨true, some 3, some 1, "n"⟩ =
      ⟨true, some 3, some 1, "n"⟩ ∧
    (stampInstance 9 ⟨true, none, none, "n"⟩).added_by = some 9 ∧
    save_formset 9 [⟨true, some 3, some 1, "n"⟩] =
      [⟨true, some 3, some 1, "n"⟩] :=
  ⟨C6_notes_append_only.2.1 9 ⟨true, some 3, some 1, "n"⟩ (by decide),
   C6_notes_append_only.2.2.1 9 ⟨true, none, none, "n"⟩ rfl rfl,
   C6_notes_append_only.2.2.2 9 [⟨true, some 3, some 1, "n"⟩]
     (by decide)⟩

/-- The fold of `deleteKeepParents` over the selected seekers removes
exactly the selected ids from the seekers table and touches nothing
else. -/
theorem foldl_deleteKeepParents (queryset : List Nat) (db : Db) :
    queryset.foldl deleteKeepParents db =
      { db with seekers :=
          db.seekers.filter (fun s => !queryset.contains s) } := by
  induction queryset generalizing db with
  | nil => simp
  | cons a as ih =>
      rw [List.foldl_cons, ih]
      simp only [deleteKeepParents, List.filter_filter]
      congr 1
      apply List.filter_congr
      intro s _
      simp only [List.contains_cons, Bool.not_or, bne]
      exact Bool.and_comm _ _

/-- Claim C7: the bulk downgrade action removes exactly the selected ids
from the Seeker specialization table, leaves the Human rows, the notes
and the pairings untouched, and reports a message carrying the count of
selected seekers. -/
theorem C7_downgrade_keeps_parents (db : Db) (queryset : List Nat) :
    (downgrade_to_prospect db queryset).1.humans = db.humans ∧
    (downgrade_to_prospect db queryset).1.notes = db.notes ∧
    (downgrade_to_prospect db queryset).1.pairings = db.pairings ∧
    (downgrade_to_prospect db queryset).1.seekers =
      db.seekers.filter (fun s => !queryset.contains s) ∧
    (downgrade_to_prospect db queryset).2 =
      s!"{queryset.length} seeker(s) downgraded to Prospects." := by
  simp [downgrade_to_prospect, foldl_deleteKeepParents]

/-- Claim C8, behavior at the failing input: a popup add request on the
Seeker admin raises (the code removes "seeker_pair" from a fields list
whose entry is "seeker_pairs", so `list.remove` raises ValueError), and
the CommunityPartner admin, which has no `get_fieldsets` override,
returns its full fieldsets rather than an abbreviated set; only the
Human admin returns the claimed two-group abbreviation without
"show_id". -/
theorem C8_popup_fieldsets_behavior :
    SeekerAdmin.get_fieldsets true true = none ∧
    CommunityPartnerAdmin.get_fieldsets true true =
      some communityPartnerFieldsets ∧
    HumanAdmin.get_fieldsets true true =
      some [⟨none, [.group ["first_names", "last_names"],
                    .group ["city", "state"]]⟩,
            ⟨some "Contact information",
             [.group ["email", "phone_number"],
              .single "contact_preference"]⟩] := by
  decide

end Athene
